import Mathlib

/-!
Shallow embedding of the petition repository's request-handling layer
(Cloudflare Pages functions): the shared utilities in
`functions/_shared/utils.ts` (CORS headers, ETag / cached responses,
KV cache-aside helpers, authentication / ownership helpers), the zod
schemas in `functions/_shared/schemas.ts`, and the route handlers
`functions/api/petitions.ts` (collection) and
`functions/api/petitions/[id].ts` (single entity).

Conventions of the embedding:

* JavaScript strings are modelled as Lean `String`s, and the JS builtins
  the code uses (`trim`, `startsWith`, `parseInt`, `localeCompare`-based
  sorting, `toString(36)`) are re-implemented below over `List Char`
  so that everything reduces in the kernel.  `localeCompare` is modelled
  as code-unit lexicographic comparison.
* JSON payloads are modelled by their serialized form (a `String`),
  since `JSON.stringify` is deterministic; the byte size measured with
  `new Blob([s]).size` is modelled as UTF-8 byte size.
* Asynchronous store operations that can fail are modelled with explicit
  failure oracles (`Bool` flags injected per call); a JS `throw` is an
  `Except.error`, and a `try`/`catch` is a `match` on the `Except`.
* Cloudflare KV handles TTL expiry internally, so the KV store model
  keeps only live entries (an expired entry is simply absent).
-/

/-! ## JS string primitives -/

/-- Whitespace recognised by JS `trim` / `parseInt` (ASCII subset). -/
def jsIsWS (c : Char) : Bool :=
  c = ' ' || c = '\t' || c = '\n' || c = '\r' || c = '\x0b' || c = '\x0c'

/-- JS `String.prototype.trim`, modelled over the character list. -/
def jsTrim (s : String) : String :=
  String.mk (((s.data.dropWhile jsIsWS).reverse.dropWhile jsIsWS).reverse)

/-- JS `String.prototype.length` (UTF-16 units; code points for BMP text). -/
def jsLength (s : String) : Nat := s.data.length

/-- JS `String.prototype.startsWith` on character lists. -/
def listStarts : List Char → List Char → Bool
  | [], _ => true
  | _ :: _, [] => false
  | p :: ps, c :: cs => p = c && listStarts ps cs

/-- JS `key.startsWith(pat)`. -/
def strStarts (s pat : String) : Bool := listStarts pat.data s.data

/-- Digit value of a character under a radix (JS `parseInt` digits). -/
def digitVal (radix : Nat) (c : Char) : Option Nat :=
  let v :=
    if '0' ≤ c ∧ c ≤ '9' then some (c.toNat - '0'.toNat)
    else if 'a' ≤ c ∧ c ≤ 'z' then some (c.toNat - 'a'.toNat + 10)
    else if 'A' ≤ c ∧ c ≤ 'Z' then some (c.toNat - 'A'.toNat + 10)
    else none
  match v with
  | some n => if n < radix then some n else none
  | none => none

/-- JS `parseInt(s)` with no radix argument: skip leading whitespace,
optional sign, optional `0x`/`0X` (hex), then the longest run of digits;
`none` models `NaN` (no digits). -/
def parseIntJS (s : String) : Option Int :=
  let cs := s.data.dropWhile jsIsWS
  let (sign, cs1) : Int × List Char :=
    match cs with
    | '-' :: t => (-1, t)
    | '+' :: t => (1, t)
    | _ => (1, cs)
  let (radix, cs2) : Nat × List Char :=
    match cs1 with
    | '0' :: 'x' :: t => (16, t)
    | '0' :: 'X' :: t => (16, t)
    | _ => (10, cs1)
  let ds := (cs2.takeWhile (fun c => (digitVal radix c).isSome)).filterMap (digitVal radix)
  if ds.isEmpty then none
  else some (sign * (ds.foldl (fun a d => a * radix + d) 0 : Nat))

/-! ## CORS (`getCorsHeaders` in `functions/_shared/utils.ts`) -/

/-- The environment bindings `getCorsHeaders` consults. -/
structure CorsEnv where
  ENVIRONMENT : Option String
  NODE_ENV : Option String

def productionOrigins : List String :=
  ["https://petition.ph", "https://www.petition.ph"]

def developmentOrigins : List String :=
  ["http://localhost:3000", "http://localhost:5173", "http://localhost:8080",
   "http://127.0.0.1:3000", "http://127.0.0.1:5173", "http://127.0.0.1:8080"]

def isProduction (env : CorsEnv) : Bool :=
  env.ENVIRONMENT = some "production" || env.NODE_ENV = some "production"

def allowedOrigins (env : CorsEnv) : List String :=
  if isProduction env then productionOrigins
  else productionOrigins ++ developmentOrigins

/-- `getCorsHeaders(request, env)`: `origin` is the request's `Origin`
header (`none` when absent). -/
def getCorsHeaders (origin : Option String) (env : CorsEnv) : List (String × String) :=
  let allowedOrigin : Option String :=
    if (allowedOrigins env).contains (origin.getD "") then origin else none
  [("Access-Control-Allow-Origin", allowedOrigin.getD "*"),
   ("Access-Control-Allow-Methods", "GET, POST, PUT, DELETE, OPTIONS"),
   ("Access-Control-Allow-Headers", "Content-Type, Authorization, X-Requested-With"),
   ("Access-Control-Allow-Credentials", "true"),
   ("Access-Control-Max-Age", "86400")]

/-- Look a header up in a header list (first match, as in a JS object). -/
def hdr (hs : List (String × String)) (k : String) : Option String :=
  (hs.find? (fun h => h.1 = k)).map (fun h => h.2)

/-! ## Response model

An HTTP `Response` is modelled by its status, its body and its headers.
Bodies keep the JSON *shape* the source constructs rather than a raw
string: `errorMsg m` is `{"error": m}`, `errorWithMessage e m` is
`{"error": e, "message": m}`, `validationErrors errs` is
`{"message": "Validation failed", "errors": errs}`, `messageBody m` is
`{"message": m}`, and `jsonPayload s` is an arbitrary serialized payload. -/

structure FieldError where
  field : String
  message : String
deriving DecidableEq, Repr

inductive RespBody where
  | empty
  | textBody (s : String)
  | errorMsg (m : String)
  | errorWithMessage (e m : String)
  | validationErrors (errs : List FieldError)
  | messageBody (m : String)
  | jsonPayload (s : String)
deriving DecidableEq, Repr

structure Response where
  status : Nat
  body : RespBody
  headers : List (String × String)
deriving DecidableEq, Repr

/-- `createSuccessResponse(data)` (legacy CORS headers omitted from the
model's header list; status defaults to 200). -/
def createSuccessResponse (body : RespBody) : Response :=
  { status := 200, body := body, headers := [("Content-Type", "application/json")] }

/-- The `error : unknown` argument of the error-response helpers: either
a JS `Error` instance (a caught `throw new Error(...)`, carrying its
`.message`) or any other value, such as the plain string literals some
handlers pass. -/
inductive ErrorArg where
  | jsError (message : String)
  | strVal (s : String)
deriving DecidableEq, Repr

/-- `error instanceof Error ? error.message : 'Unknown error'`: only an
`Error` instance contributes its message; any other value (a plain
string included) renders as `'Unknown error'`. -/
def errorMessage : ErrorArg → String
  | .jsError m => m
  | .strVal _ => "Unknown error"

/-- `createCachedErrorResponse(error, request, env, status)`. -/
def createCachedErrorResponse (err : ErrorArg) (cors : List (String × String))
    (status : Nat) : Response :=
  { status := status, body := .errorMsg (errorMessage err),
    headers := cors ++ [("Content-Type", "application/json"),
                        ("Cache-Control", "no-cache, no-store, must-revalidate")] }

/-- `createValidationErrorResponse(errors, request, env)`: status 422 and
body `{ message: 'Validation failed', errors }`. -/
def createValidationErrorResponse (errs : List FieldError)
    (cors : List (String × String)) : Response :=
  { status := 422, body := .validationErrors errs,
    headers := cors ++ [("Content-Type", "application/json"),
                        ("Cache-Control", "no-cache, no-store, must-revalidate")] }

/-! ## ETag generation (`generateETag`, `createCachedResponse`) -/

/-- JS `ToInt32`: fold an integer into the signed 32-bit range, as the
`&` and `<<` operators do. -/
def toInt32 (n : Int) : Int :=
  let m := n % (2 ^ 32)
  if m ≥ 2 ^ 31 then m - 2 ^ 32 else m

/-- One step of the ETag hash loop:
`hash = (hash << 5) - hash + char; hash = hash & hash`. -/
def etagStep (h : Int) (c : Char) : Int :=
  toInt32 (toInt32 (h * 32) - h + c.toNat)

/-- The accumulated 32-bit hash over the serialized payload. -/
def etagHash (s : String) : Int := s.data.foldl etagStep 0

/-- Digits of JS `Number.prototype.toString(36)`: `0`-`9` then `a`-`z`. -/
def digit36 (n : Nat) : Char :=
  if n < 10 then Char.ofNat (48 + n) else Char.ofNat (87 + n)

/-- JS `n.toString(36)` for a non-negative integer. -/
def toBase36 (n : Nat) : String :=
  if h : n < 36 then String.mk [digit36 n]
  else toBase36 (n / 36) ++ String.mk [digit36 (n % 36)]
decreasing_by
  exact Nat.div_lt_self (Nat.lt_of_lt_of_le (by decide) (Nat.le_of_not_lt h)) (by decide)

/-- `generateETag(data)` over the serialized payload:
`` `"${Math.abs(hash).toString(36)}"` ``. -/
def generateETag (data : String) : String :=
  "\"" ++ toBase36 (etagHash data).natAbs ++ "\""

/-- `createCachedResponse(data, request, env, cacheMaxAge)`: `inm` is the
request's `If-None-Match` header, `now` the formatted current time used
for `Last-Modified`. -/
def createCachedResponse (data : String) (inm : Option String)
    (cors : List (String × String)) (cacheMaxAge : Nat) (now : String) : Response :=
  let etag := generateETag data
  if inm = some etag then
    { status := 304, body := .empty,
      headers := cors ++ [("ETag", etag),
                          ("Cache-Control", "public, max-age=" ++ toString cacheMaxAge)] }
  else
    { status := 200, body := .jsonPayload data,
      headers := cors ++ [("Content-Type", "application/json"),
                          ("ETag", etag),
                          ("Cache-Control", "public, max-age=" ++ toString cacheMaxAge),
                          ("Last-Modified", now)] }

/-! ## Cache-key construction (`generateCacheKey`) -/

/-- The sort comparator `([a], [b]) => a.localeCompare(b)` on query
parameter pairs, modelled as lexicographic order on the key strings
(order on `List Char`). -/
def keyLe (a b : String × String) : Prop := a.1.data ≤ b.1.data

instance : DecidableRel keyLe :=
  fun a b => inferInstanceAs (Decidable (a.1.data ≤ b.1.data))

instance : IsTotal (String × String) keyLe := ⟨fun a b => le_total a.1.data b.1.data⟩

instance : IsTrans (String × String) keyLe := ⟨fun _ _ _ h h' => le_trans h h'⟩

/-- Strict version of `keyLe`, used to show sorted outputs are unique
when parameter names are pairwise distinct. -/
def keyLt (a b : String × String) : Prop := a.1.data < b.1.data

instance : DecidableRel keyLt :=
  fun a b => inferInstanceAs (Decidable (a.1.data < b.1.data))

instance : IsAntisymm (String × String) keyLt :=
  ⟨fun _ _ h h' => absurd h (lt_asymm h')⟩

/-- Join the rendered `key=value` fragments with `&`. -/
def joinAmp : List String → String
  | [] => ""
  | [s] => s
  | s :: rest => s ++ "&" ++ joinAmp rest

/-- `generateCacheKey(request, prefix)`: `params` is the query in its
URL order (`URLSearchParams` iteration order, duplicates preserved);
JS `Array.prototype.sort` is stable, which `List.insertionSort` matches. -/
def generateCacheKey (ns path : String) (params : List (String × String)) : String :=
  let sortedParams :=
    joinAmp ((List.insertionSort keyLe params).map (fun p => p.1 ++ "=" ++ p.2))
  ns ++ ":" ++ path ++ (if sortedParams = "" then "" else "?" ++ sortedParams)

/-! ## KV cache-aside layer

The Cloudflare KV namespace is modelled as a list of live entries
`(key, serialized value, ttlSeconds)`; `kv.put` overwrites an existing
key.  Each primitive store operation takes a failure oracle: `true`
means the underlying store raises on that call.  For `kv.delete`, which
is issued once per matching key under `Promise.all`, the oracle is
per-key (`flDel key = true` means that key's delete rejects). -/

structure KVStore where
  entries : List (String × String × Nat)
deriving DecidableEq, Repr

/-- Current value stored under a key (ignoring the recorded TTL, which
the KV service enforces by dropping expired entries). -/
def kvLookup (st : KVStore) (key : String) : Option String :=
  (st.entries.find? (fun e => e.1 = key)).map (fun e => e.2.1)

/-- `kv.get(key, 'json')` with failure oracle. -/
def kvGet (fl : Bool) (st : KVStore) (key : String) : Except String (Option String) :=
  if fl then .error "KV get failed" else .ok (kvLookup st key)

/-- `kv.put(key, value, { expirationTtl })` result state (success case). -/
def kvPut (st : KVStore) (key value : String) (ttl : Nat) : KVStore :=
  ⟨(key, value, ttl) :: st.entries.filter (fun e => ¬ e.1 = key)⟩

/-- The KV item-size limit checked by `setCachedData`: 25 MB. -/
def kvSizeLimit : Nat := 25 * 1024 * 1024

/-- `getCachedData(cacheKey, kv)`: the whole body is inside `try`/`catch`
with the `catch` returning `null`, so a store failure degrades to a
miss.  `kvOk = false` models an undefined KV namespace binding.  The
result is `Except` so that "the caller sees an exception" is
representable — the theorems show the `.error` case never happens. -/
def getCachedData (flGet : Bool) (kvOk : Bool) (st : KVStore) (key : String) :
    Except String (Option String) :=
  if ¬ kvOk then .ok none
  else
    match kvGet flGet st key with
    | .error _ => .ok none
    | .ok v => .ok v

/-- `setCachedData(cacheKey, data, kv, ttlSeconds)`: serializes, skips
payloads above `kvSizeLimit`, writes otherwise; the whole body is in
`try`/`catch` so a failing `kv.put` degrades to a no-op. Returns the
resulting store. -/
def setCachedData (flPut : Bool) (st : KVStore) (key data : String) (ttl : Nat) :
    Except String KVStore :=
  let dataSize := data.utf8ByteSize
  if dataSize > kvSizeLimit then .ok st
  else if flPut then .ok st   -- kv.put threw; caught, store unchanged
  else .ok (kvPut st key data ttl)

/-- `invalidateCachePattern(pattern, kv)`: lists keys with the given
name pattern as their leading characters and deletes them under
`Promise.all`; all failures are caught.  `flList = true` means the
`kv.list` call raises (nothing deleted); a key whose delete rejects
survives. -/
def invalidateCachePattern (flList : Bool) (flDel : String → Bool) (st : KVStore)
    (pat : String) : Except String KVStore :=
  if flList then .ok st
  else .ok ⟨st.entries.filter (fun e => !strStarts e.1 pat || flDel e.1)⟩

/-- Result of `getOrSetCache`: the value produced, the resulting store
state, and how many times the loader ran. -/
structure CacheOutcome where
  value : String
  store : KVStore
  loaderCalls : Nat
deriving DecidableEq, Repr

/-- `getOrSetCache(cacheKey, kv, dataFetcher, ttlSeconds)`: cache-aside.
The loader is an already-determined fetch outcome (`.error` models the
fetcher throwing, which the source does not catch).  The inner
`try`/`catch` around `setCachedData` swallows write failures. -/
def getOrSetCache (flGet flPut : Bool) (st : KVStore) (key : String)
    (loader : Except String String) (ttl : Nat) : Except String CacheOutcome :=
  match getCachedData flGet true st key with
  | .ok (some cached) => .ok ⟨cached, st, 0⟩
  | _ =>
    match loader with
    | .error e => .error e
    | .ok data =>
      let st' := match setCachedData flPut st key data ttl with
        | .ok s => s
        | .error _ => st
      .ok ⟨data, st', 1⟩

/-! ## Validation schemas (`functions/_shared/schemas.ts`)

The zod schemas are embedded over already-typed JSON fields (`Option`
marks an absent field; the claims exercise presence/length/enum/range
checks, not JSON type mismatches).  zod collects the issues of every
field in declaration order, applies `.trim()` transforms and the
`target_count` default after the checks, and runs `.refine` only when
the base object parsed successfully.  `ptype` models the `type` field,
whose name is reserved in Lean. -/

structure CreateInput where
  title : Option String
  description : Option String
  ptype : Option String
  location : Option String
  target_count : Option Int
  category_ids : Option (List Int)
  image_url : Option String
  created_by : Option String
deriving DecidableEq, Repr

structure ValidatedPetitionData where
  title : String
  description : String
  ptype : String
  location : Option String
  target_count : Int
  category_ids : Option (List Int)
  image_url : Option String
  created_by : String
deriving DecidableEq, Repr

def titleIssues (t : Option String) : List FieldError :=
  match t with
  | none => [⟨"title", "Title is required"⟩]
  | some t =>
    (if jsLength t < 10 then [⟨"title", "Title must be at least 10 characters"⟩] else []) ++
    (if jsLength t > 150 then [⟨"title", "Title must not exceed 150 characters"⟩] else [])

def descriptionIssues (d : Option String) : List FieldError :=
  match d with
  | none => [⟨"description", "Description is required"⟩]
  | some d =>
    if jsLength d < 100 then [⟨"description", "Description must be at least 100 characters"⟩]
    else []

/-- Issues of the `type` enum; `required` is `false` under `.partial()`,
where an absent field is skipped before the inner schema runs. -/
def typeIssues (required : Bool) (t : Option String) : List FieldError :=
  match t with
  | none => if required then [⟨"type", "Petition type is required"⟩] else []
  | some t =>
    if t = "local" ∨ t = "national" then []
    else [⟨"type", "Petition type must be either \x22local\x22 or \x22national\x22"⟩]

def targetCountIssues (n : Option Int) : List FieldError :=
  match n with
  | none => []   -- `.default(1000)` / absent optional field
  | some n =>
    (if n < 1 then [⟨"target_count", "Target count must be at least 1"⟩] else []) ++
    (if n > 1000000 then [⟨"target_count", "Target count must not exceed 1,000,000"⟩] else [])

def createdByIssues (s : Option String) : List FieldError :=
  match s with
  | none => [⟨"created_by", "Required"⟩]
  | some _ => []

def statusIssues (s : Option String) : List FieldError :=
  match s with
  | none => []
  | some s =>
    if s = "active" ∨ s = "completed" ∨ s = "closed" then []
    else [⟨"status", "Status must be one of: active, completed, closed"⟩]

/-- The `.refine` predicate shared by both schemas: when `type` is
`'local'`, the (already trimmed) `location` must be present and
non-empty. -/
def locationRefineOk (ptype : Option String) (location : Option String) : Bool :=
  if ptype = some "local" then
    match location with
    | none => false
    | some l => jsLength l > 0
  else true

/-- `createPetitionSchema.safeParse` (with `formatZodError` applied to
the failure case). -/
def validateCreatePetition (p : CreateInput) : Except (List FieldError) ValidatedPetitionData :=
  let issues :=
    titleIssues p.title ++ descriptionIssues p.description ++ typeIssues true p.ptype ++
    targetCountIssues p.target_count ++ createdByIssues p.created_by
  if issues.isEmpty then
    let out : ValidatedPetitionData :=
      { title := jsTrim (p.title.getD "")
        description := jsTrim (p.description.getD "")
        ptype := p.ptype.getD ""
        location := p.location.map jsTrim
        target_count := p.target_count.getD 1000
        category_ids := p.category_ids
        image_url := p.image_url
        created_by := p.created_by.getD "" }
    if locationRefineOk out.ptype out.location then .ok out
    else .error [⟨"location", "Location is required for local petitions"⟩]
  else .error issues

structure UpdateInput where
  title : Option String
  description : Option String
  ptype : Option String
  location : Option String
  target_count : Option Int
  category_ids : Option (List Int)
  image_url : Option String
  status : Option String
deriving DecidableEq, Repr

/-- Output of `updatePetitionSchema`: `.partial()` keeps every field
optional and applies no default (an omitted `target_count` stays
omitted, as the unit tests assert). -/
structure ValidatedUpdateData where
  title : Option String
  description : Option String
  ptype : Option String
  location : Option String
  target_count : Option Int
  category_ids : Option (List Int)
  image_url : Option String
  status : Option String
deriving DecidableEq, Repr

/-- `updatePetitionSchema.safeParse` (with `formatZodError` applied to
the failure case). -/
def validateUpdatePetition (p : UpdateInput) : Except (List FieldError) ValidatedUpdateData :=
  let issues :=
    (match p.title with | none => [] | some t => titleIssues (some t)) ++
    (match p.description with | none => [] | some d => descriptionIssues (some d)) ++
    typeIssues false p.ptype ++
    targetCountIssues p.target_count ++
    statusIssues p.status
  if issues.isEmpty then
    let out : ValidatedUpdateData :=
      { title := p.title.map jsTrim
        description := p.description.map jsTrim
        ptype := p.ptype
        location := p.location.map jsTrim
        target_count := p.target_count
        category_ids := p.category_ids
        image_url := p.image_url
        status := p.status }
    if locationRefineOk out.ptype out.location then .ok out
    else .error [⟨"location", "Location is required when changing petition type to local"⟩]
  else .error issues

/-! ## Data model and data-access layer -/

structure Petition where
  id : Int
  title : String
  description : String
  ptype : String
  location : Option String
  target_count : Int
  status : String
  image_url : Option String
  category_ids : Option (List Int)
  created_by : String
deriving DecidableEq, Repr

/-- JSON rendering of a petition row, standing in for
`JSON.stringify(petition)` in cache values and response bodies. -/
def serializePetition (p : Petition) : String :=
  "\x7b\x22id\x22:" ++ toString p.id ++
  ",\x22title\x22:\x22" ++ p.title ++
  "\x22,\x22created_by\x22:\x22" ++ p.created_by ++ "\x22\x7d"

/-- Modelled from the spec: `DatabaseService` lives in `src/db/service`,
which is not among the provided sources; the spec describes it as plain
CRUD against a relational store, queried by id.  The store is a list of
rows. -/
def getPetitionById (db : List Petition) (pid : Int) : Option Petition :=
  db.find? (fun p => p.id = pid)

/-- Apply a validated partial update to a row (absent fields keep the
old value). -/
def applyUpdate (p : Petition) (u : ValidatedUpdateData) : Petition :=
  { p with
    title := u.title.getD p.title
    description := u.description.getD p.description
    ptype := u.ptype.getD p.ptype
    location := match u.location with | none => p.location | some l => some l
    target_count := u.target_count.getD p.target_count
    status := u.status.getD p.status
    image_url := match u.image_url with | none => p.image_url | some l => some l
    category_ids := match u.category_ids with | none => p.category_ids | some l => some l }

/-- Modelled from the spec: `DatabaseService.updatePetition` updates the
row by id and returns it; a missing id is modelled as a thrown error
(`none`), which the handler's outer `catch` turns into a 500. -/
def dbUpdatePetition (db : List Petition) (pid : Int) (u : ValidatedUpdateData) :
    Option (Petition × List Petition) :=
  match getPetitionById db pid with
  | none => none
  | some p =>
    let p' := applyUpdate p u
    some (p', db.map (fun q => if q.id = pid then p' else q))

/-- Modelled from the spec: `DatabaseService.deletePetition` removes the
row by id. -/
def dbDeletePetition (db : List Petition) (pid : Int) : List Petition :=
  db.filter (fun p => ¬ p.id = pid)

/-- Modelled from the spec: `DatabaseService.createPetition` inserts a
new row from the validated payload (the handler passes `image_url: ''`)
with a store-assigned id and status `active`. -/
def dbCreatePetition (db : List Petition) (v : ValidatedPetitionData) (newId : Int) :
    Petition × List Petition :=
  let p : Petition :=
    { id := newId, title := v.title, description := v.description, ptype := v.ptype,
      location := v.location, target_count := v.target_count, status := "active",
      image_url := some "", category_ids := v.category_ids, created_by := v.created_by }
  (p, db ++ [p])

/-! ## Authentication / ownership (`functions/_shared/utils.ts`) -/

structure AuthenticatedUser where
  id : String
  email : String
  name : String
  image : Option String
deriving DecidableEq, Repr

/-- `requireAuthentication(request, env)`: `auth` is the identity the
session introspection resolved (`none` covers every failure mode of
`getAuthenticatedUser`, which never throws outward). -/
def requireAuthentication (auth : Option AuthenticatedUser)
    (cors : List (String × String)) : Except Response AuthenticatedUser :=
  match auth with
  | none =>
    .error { status := 401,
             body := .errorWithMessage "Authentication required"
               "You must be signed in to perform this action",
             headers := cors ++ [("Content-Type", "application/json")] }
  | some u => .ok u

/-- `requirePetitionOwnership(request, env, petitionId)`: authentication,
then a 404 for a missing petition, then the owner check; `dbFail` is the
oracle for `db.getPetitionById` throwing (the `catch` branch returns a
500). -/
def requirePetitionOwnership (auth : Option AuthenticatedUser) (dbFail : Bool)
    (db : List Petition) (pid : Int) (cors : List (String × String)) :
    Except Response AuthenticatedUser :=
  match requireAuthentication auth cors with
  | .error r => .error r
  | .ok user =>
    if dbFail then
      .error { status := 500, body := .errorMsg "Internal server error",
               headers := cors ++ [("Content-Type", "application/json")] }
    else
      match getPetitionById db pid with
      | none =>
        .error { status := 404, body := .errorMsg "Petition not found",
                 headers := cors ++ [("Content-Type", "application/json")] }
      | some petition =>
        if ¬ petition.created_by = user.id then
          .error { status := 403,
                   body := .errorWithMessage "Forbidden"
                     "You can only modify petitions you created",
                   headers := cors ++ [("Content-Type", "application/json")] }
        else .ok user

/-! ## Route handlers -/

/-- Failure oracles for the KV calls a handler makes: `g` = `kv.get`
raises, `p` = `kv.put` raises, `l` = `kv.list` raises, `d key` = the
`kv.delete` for `key` rejects. -/
structure KVFl where
  g : Bool
  p : Bool
  l : Bool
  d : String → Bool

/-- The all-healthy store oracle. -/
def kvOkFl : KVFl := ⟨false, false, false, fun _ => false⟩

/-- The parts of a request to `/api/petitions/{id}` the handler reads.
`putBody` is the parsed JSON body used by `PUT` (the `multipart/form-data`
branch differs only in how this record is assembled, and the image-upload
step, whose failures the source absorbs, is not modelled). -/
structure IdRequest where
  method : String
  idParam : String
  urlPath : String
  urlQuery : List (String × String)
  origin : Option String
  ifNoneMatch : Option String
  now : String
  putBody : UpdateInput

/-- `onRequest` of `functions/api/petitions/[id].ts`.  Returns the
response together with the resulting database and KV store states. -/
def onRequestById (req : IdRequest) (env : CorsEnv) (fl : KVFl)
    (db : List Petition) (st : KVStore) : Response × List Petition × KVStore :=
  if req.method = "OPTIONS" then
    ({ status := 204, body := .empty, headers := getCorsHeaders req.origin env }, db, st)
  else
    let cors := getCorsHeaders req.origin env
    match parseIntJS req.idParam with
    | none => (createCachedErrorResponse (.strVal "Invalid petition ID") cors 400, db, st)
    | some pid =>
      if req.method = "GET" then
        let cacheKey := generateCacheKey "petition" req.urlPath req.urlQuery
        let loader : Except String String :=
          match getPetitionById db pid with
          | none => .error "Petition not found"
          | some p => .ok (serializePetition p)
        match getOrSetCache fl.g fl.p st cacheKey loader (10 * 60) with
        | .error e => (createCachedErrorResponse (.jsError e) cors 500, db, st)
        | .ok out =>
          (createCachedResponse out.value req.ifNoneMatch cors (10 * 60) req.now, db, out.store)
      else if req.method = "PUT" then
        match validateUpdatePetition req.putBody with
        | .error errs => (createValidationErrorResponse errs cors, db, st)
        | .ok upd =>
          match dbUpdatePetition db pid upd with
          | none => (createCachedErrorResponse (.jsError "Petition not found") cors 500, db, st)
          | some (p', db') =>
            match invalidateCachePattern fl.l fl.d st "petitions:" with
            | .error e => (createCachedErrorResponse (.jsError e) cors 500, db', st)
            | .ok st1 =>
              match invalidateCachePattern fl.l fl.d st1 "petition:" with
              | .error e => (createCachedErrorResponse (.jsError e) cors 500, db', st1)
              | .ok st2 =>
                (createSuccessResponse (.jsonPayload (serializePetition p')), db', st2)
      else if req.method = "DELETE" then
        let db' := dbDeletePetition db pid
        match invalidateCachePattern fl.l fl.d st "petitions:" with
        | .error e => (createCachedErrorResponse (.jsError e) cors 500, db', st)
        | .ok st1 =>
          match invalidateCachePattern fl.l fl.d st1 "petition:" with
          | .error e => (createCachedErrorResponse (.jsError e) cors 500, db', st1)
          | .ok st2 =>
            (createSuccessResponse (.messageBody "Petition deleted successfully"), db', st2)
      else (createCachedErrorResponse (.strVal "Method not allowed") cors 405, db, st)

/-- The `POST` branch of `onRequest` in `functions/api/petitions.ts`
(create petition, JSON body).  `user` is `context.data.user` as set by
the routing layer; `newId` is the id the store assigns.  Note the
success path invalidates only the `petitions:` namespace. -/
def onRequestPetitionsPost (user : Option AuthenticatedUser) (body : CreateInput)
    (origin : Option String) (env : CorsEnv) (fl : KVFl) (newId : Int)
    (db : List Petition) (st : KVStore) : Response × List Petition × KVStore :=
  let cors := getCorsHeaders origin env
  match user with
  | none => (createCachedErrorResponse (.strVal "Authentication required") cors 401, db, st)
  | some u =>
    let body' := { body with created_by := some u.id }
    match validateCreatePetition body' with
    | .error errs => (createValidationErrorResponse errs cors, db, st)
    | .ok v =>
      let (p, db') := dbCreatePetition db v newId
      match invalidateCachePattern fl.l fl.d st "petitions:" with
      | .error e => (createCachedErrorResponse (.jsError e) cors 500, db', st)
      | .ok st1 => (createSuccessResponse (.jsonPayload (serializePetition p)), db', st1)

/-- Modelled from the spec: the routing layer that resolves the session
identity and enforces resource ownership before dispatching a `PUT` to
the petition `[id]` handler is not among the provided sources (the
collection handler reads `context.data.user` "set by router", and
`requirePetitionOwnership` is exported from the shared utilities with no
caller in the provided files).  Following the spec's end-to-end property,
a `PUT` is dispatched to the handler only after
`requirePetitionOwnership` permits it. -/
def routedPut (auth : Option AuthenticatedUser) (dbFail : Bool) (req : IdRequest)
    (env : CorsEnv) (fl : KVFl) (db : List Petition) (st : KVStore) :
    Response × List Petition × KVStore :=
  let cors := getCorsHeaders req.origin env
  match parseIntJS req.idParam with
  | none => onRequestById req env fl db st
  | some pid =>
    match requirePetitionOwnership auth dbFail db pid cors with
    | .error resp => (resp, db, st)
    | .ok _ => onRequestById req env fl db st

deriving instance DecidableEq for Except

/-! ## Theorems -/

theorem utf8Size_mk_replicate_a (n : Nat) :
    (String.mk (List.replicate n 'a')).utf8ByteSize = n := by
  induction n with
  | zero => rfl
  | succ k ih =>
    simp only [List.replicate, String.utf8ByteSize, String.utf8ByteSize.go] at ih ⊢
    have ha : 'a'.utf8Size = 1 := by decide
    rw [ha, ih]

theorem contains_empty_allowedOrigins (env : CorsEnv) :
    (allowedOrigins env).contains "" = false := by
  unfold allowedOrigins
  by_cases h : isProduction env = true <;> simp [h] <;> decide

/-- Claim C4 (counterexample): two requests whose query parameters are
the same multiset in a different order can produce different cache keys
when a parameter name repeats, because the stable sort compares names
only. -/
theorem c4_duplicate_name_counterexample :
    List.Perm [("a","1"),("a","2")] [("a","2"),("a","1")] ∧
    ¬ generateCacheKey "api" "/api/petitions" [("a","1"),("a","2")] =
        generateCacheKey "api" "/api/petitions" [("a","2"),("a","1")] := by
  constructor
  · exact List.Perm.swap _ _ _
  · decide

/-- Claim C4 (amended): for requests with the same path whose query
parameters are the same multiset with pairwise-distinct parameter
names, `generateCacheKey` produces the identical key, and the key is
built from the parameters sorted by name. -/
theorem c4_key_order_independent (ns path : String) (ps qs : List (String × String))
    (hperm : List.Perm ps qs) (hnd : (ps.map Prod.fst).Nodup) :
    generateCacheKey ns path ps = generateCacheKey ns path qs ∧
    List.Sorted keyLe (List.insertionSort keyLe ps) := by
  have strict : ∀ (l : List (String × String)), List.Sorted keyLe l →
      ((l.map Prod.fst).Nodup) → List.Sorted keyLt l := by
    intro l hs hn
    have hne : List.Pairwise (fun a b : String × String => a.1 ≠ b.1) l :=
      List.pairwise_map.mp hn
    exact (hs.and hne).imp (fun {a b} h =>
      lt_of_le_of_ne h.1 (fun hd => h.2 (congrArg String.mk hd)))
  constructor
  · have hp1 := List.perm_insertionSort keyLe ps
    have hp2 := List.perm_insertionSort keyLe qs
    have hpp : List.Perm (List.insertionSort keyLe ps) (List.insertionSort keyLe qs) :=
      (hp1.trans hperm).trans hp2.symm
    have hnd1 : ((List.insertionSort keyLe ps).map Prod.fst).Nodup :=
      ((hp1.map Prod.fst).nodup_iff).mpr hnd
    have hnd2 : ((List.insertionSort keyLe qs).map Prod.fst).Nodup :=
      ((hp2.map Prod.fst).nodup_iff).mpr (((hperm.map Prod.fst).nodup_iff).mp hnd)
    have hsortEq : List.insertionSort keyLe ps = List.insertionSort keyLe qs :=
      List.eq_of_perm_of_sorted hpp
        (strict _ (List.sorted_insertionSort keyLe ps) hnd1)
        (strict _ (List.sorted_insertionSort keyLe qs) hnd2)
    unfold generateCacheKey
    rw [hsortEq]
  · exact List.sorted_insertionSort keyLe ps

/-- Claim C4 witness. -/
theorem c4_key_order_independent_witness :
    generateCacheKey "api" "/api/petitions" [("b","2"),("a","1")] =
      generateCacheKey "api" "/api/petitions" [("a","1"),("b","2")] ∧
    List.Sorted keyLe (List.insertionSort keyLe [("b","2"),("a","1")]) :=
  c4_key_order_independent "api" "/api/petitions" [("b","2"),("a","1")] [("a","1"),("b","2")]
    (List.Perm.swap _ _ _) (by decide)

/-- Claim C5: `getOrSetCache` returns the cached value without invoking
the loader on a hit; on a miss it invokes the loader exactly once,
stores the result under the key with the given TTL (when the store
accepts the write), and returns that result. -/
theorem c5_get_or_set_cache (st : KVStore) (key : String) (ttl : Nat)
    (loader : Except String String) :
    (∀ v, kvLookup st key = some v →
      getOrSetCache false false st key loader ttl = .ok ⟨v, st, 0⟩) ∧
    (∀ d, kvLookup st key = none → loader = .ok d → d.utf8ByteSize ≤ kvSizeLimit →
      getOrSetCache false false st key loader ttl = .ok ⟨d, kvPut st key d ttl, 1⟩ ∧
      kvLookup (kvPut st key d ttl) key = some d ∧
      (key, d, ttl) ∈ (kvPut st key d ttl).entries) := by
  constructor
  · intro v hv
    simp [getOrSetCache, getCachedData, kvGet, hv]
  · intro d hmiss hload hsize
    refine ⟨?_, ?_, ?_⟩
    · simp [getOrSetCache, getCachedData, kvGet, hmiss, hload, setCachedData,
        Nat.not_lt.mpr hsize]
    · simp [kvLookup, kvPut, List.find?]
    · simp [kvPut]

/-- Claim C5 witness. -/
theorem c5_get_or_set_cache_witness :
    getOrSetCache false false ⟨[("k", "v", 60)]⟩ "k" (.ok "w") 60 =
      .ok ⟨"v", ⟨[("k", "v", 60)]⟩, 0⟩ ∧
    getOrSetCache false false ⟨[]⟩ "k" (.ok "w") 60 =
      .ok ⟨"w", kvPut ⟨[]⟩ "k" "w" 60, 1⟩ :=
  ⟨(c5_get_or_set_cache ⟨[("k", "v", 60)]⟩ "k" 60 (.ok "w")).1 "v" (by decide),
   ((c5_get_or_set_cache ⟨[]⟩ "k" 60 (.ok "w")).2 "w" (by decide) rfl (by decide)).1⟩

/-- Claim C6: a failure of the underlying key-value store during a cache
read, write, or invalidation never propagates: the wrappers always
return `.ok`; a failing read degrades to a miss (`none`), and a failing
write or a failing key listing leaves the store unchanged. -/
theorem c6_store_failures_swallowed (st : KVStore) (key data pat : String) (ttl : Nat)
    (flDel : String → Bool) :
    (∀ flGet kvOk, ∃ v, getCachedData flGet kvOk st key = .ok v) ∧
    getCachedData true true st key = .ok none ∧
    (∀ flPut, ∃ s, setCachedData flPut st key data ttl = .ok s) ∧
    setCachedData true st key data ttl = .ok st ∧
    (∀ flList, ∃ s, invalidateCachePattern flList flDel st pat = .ok s) ∧
    invalidateCachePattern true flDel st pat = .ok st := by
  refine ⟨?_, ?_, ?_, ?_, ?_, ?_⟩
  · intro flGet kvOk
    cases kvOk <;> cases flGet <;> simp [getCachedData, kvGet]
  · simp [getCachedData, kvGet]
  · intro flPut
    by_cases h : data.utf8ByteSize > kvSizeLimit <;> cases flPut <;>
      simp [setCachedData, h]
  · by_cases h : data.utf8ByteSize > kvSizeLimit <;> simp [setCachedData, h]
  · intro flList
    cases flList <;> simp [invalidateCachePattern]
  · simp [invalidateCachePattern]

/-- Claim C7: a payload whose serialized size exceeds the 25 MB
threshold is never written (the store state is unchanged, and a
subsequent read of a previously-absent key misses); payloads at or
below the threshold are written with the given TTL. -/
theorem c7_oversize_payload_skipped (st : KVStore) (key data : String) (ttl : Nat)
    (flPut : Bool) :
    (data.utf8ByteSize > kvSizeLimit →
      setCachedData flPut st key data ttl = .ok st ∧
      (kvLookup st key = none → getCachedData false true st key = .ok none)) ∧
    (data.utf8ByteSize ≤ kvSizeLimit →
      setCachedData false st key data ttl = .ok (kvPut st key data ttl) ∧
      (key, data, ttl) ∈ (kvPut st key data ttl).entries) := by
  constructor
  · intro hbig
    refine ⟨by simp [setCachedData, hbig], fun hmiss => by
      simp [getCachedData, kvGet, hmiss]⟩
  · intro hsize
    exact ⟨by simp [setCachedData, Nat.not_lt.mpr hsize], by simp [kvPut]⟩

/-- Claim C7 witness: a 25 MB + 1 byte payload is skipped, and a 1-byte
payload is written. -/
theorem c7_oversize_payload_skipped_witness :
    (String.mk (List.replicate 26214401 'a')).utf8ByteSize > kvSizeLimit ∧
    setCachedData false ⟨[]⟩ "k" (String.mk (List.replicate 26214401 'a')) 300 = .ok ⟨[]⟩ ∧
    getCachedData false true ⟨[]⟩ "k" = .ok none ∧
    setCachedData false ⟨[]⟩ "k" "v" 300 = .ok (kvPut ⟨[]⟩ "k" "v" 300) := by
  have hbig : (String.mk (List.replicate 26214401 'a')).utf8ByteSize > kvSizeLimit := by
    rw [utf8Size_mk_replicate_a]; decide
  have h := (c7_oversize_payload_skipped ⟨[]⟩ "k" (String.mk (List.replicate 26214401 'a'))
    300 false).1 hbig
  have h2 := (c7_oversize_payload_skipped ⟨[]⟩ "k" "v" 300 false).2 (by decide)
  exact ⟨hbig, h.1, h.2 rfl, h2.1⟩

/-- Claim C8: `generateETag` is deterministic, and `createCachedResponse`
returns 304 with a null body when the request's `If-None-Match` header
equals the payload's fingerprint, and otherwise returns the payload with
`ETag` and `Cache-Control` headers attached. -/
theorem c8_etag_conditional (d1 d2 data now : String) (inm : Option String)
    (origin : Option String) (env : CorsEnv) (maxAge : Nat) (hdet : d1 = d2) :
    generateETag d1 = generateETag d2 ∧
    (inm = some (generateETag data) →
      (createCachedResponse data inm (getCorsHeaders origin env) maxAge now).status = 304 ∧
      (createCachedResponse data inm (getCorsHeaders origin env) maxAge now).body = .empty) ∧
    (¬ inm = some (generateETag data) →
      (createCachedResponse data inm (getCorsHeaders origin env) maxAge now).status = 200 ∧
      (createCachedResponse data inm (getCorsHeaders origin env) maxAge now).body =
        .jsonPayload data ∧
      hdr (createCachedResponse data inm (getCorsHeaders origin env) maxAge now).headers
        "ETag" = some (generateETag data) ∧
      hdr (createCachedResponse data inm (getCorsHeaders origin env) maxAge now).headers
        "Cache-Control" = some ("public, max-age=" ++ toString maxAge)) := by
  subst hdet
  refine ⟨rfl, ?_, ?_⟩
  · intro h
    simp [createCachedResponse, h]
  · intro h
    simp [createCachedResponse, h, hdr, getCorsHeaders, List.find?]

/-- Claim C8 witness. -/
theorem c8_etag_conditional_witness :
    (createCachedResponse "x" (some (generateETag "x"))
      (getCorsHeaders none ⟨none, none⟩) 300 "t").status = 304 ∧
    (createCachedResponse "x" none (getCorsHeaders none ⟨none, none⟩) 300 "t").status = 200 := by
  have h1 := c8_etag_conditional "x" "x" "x" "t" (some (generateETag "x")) none
    ⟨none, none⟩ 300 rfl
  have h2 := c8_etag_conditional "x" "x" "x" "t" none none ⟨none, none⟩ 300 rfl
  exact ⟨(h1.2.1 rfl).1, (h2.2.2 (by simp)).1⟩

/-- Claim C9: when the request's `Origin` is absent or not in the
allow-list, the CORS headers pair the wildcard `*` allow-origin with
`Access-Control-Allow-Credentials: true`; an allow-listed origin is
echoed back; outside production the allow-list is the production plus
localhost origins. -/
theorem c9_cors_wildcard_with_credentials (env : CorsEnv) (origin : Option String) :
    ((allowedOrigins env).contains (origin.getD "") = false →
      hdr (getCorsHeaders origin env) "Access-Control-Allow-Origin" = some "*" ∧
      hdr (getCorsHeaders origin env) "Access-Control-Allow-Credentials" = some "true") ∧
    ((allowedOrigins env).contains (origin.getD "") = true →
      hdr (getCorsHeaders origin env) "Access-Control-Allow-Origin" = origin ∧
      hdr (getCorsHeaders origin env) "Access-Control-Allow-Credentials" = some "true") ∧
    (origin = none → (allowedOrigins env).contains (origin.getD "") = false) ∧
    (isProduction env = false → allowedOrigins env = productionOrigins ++ developmentOrigins) := by
  refine ⟨?_, ?_, ?_, ?_⟩
  · intro h
    have h' : ¬ (origin.getD "" ∈ allowedOrigins env) := by
      simpa using h
    simp [getCorsHeaders, hdr, h', List.find?]
  · intro h
    cases origin with
    | none =>
      have h0 := contains_empty_allowedOrigins env
      simp only [Option.getD_none] at h
      rw [h0] at h
      exact absurd h (by simp)
    | some o =>
      have h' : o ∈ allowedOrigins env := by
        simpa using h
      simp [getCorsHeaders, hdr, h', List.find?]
  · intro h
    subst h
    exact contains_empty_allowedOrigins env
  · intro h
    simp [allowedOrigins, h]

/-- Claim C9 witness. -/
theorem c9_cors_wildcard_with_credentials_witness :
    (hdr (getCorsHeaders (some "https://evil.example") ⟨none, none⟩)
      "Access-Control-Allow-Origin" = some "*" ∧
     hdr (getCorsHeaders (some "https://evil.example") ⟨none, none⟩)
      "Access-Control-Allow-Credentials" = some "true") ∧
    hdr (getCorsHeaders (some "https://petition.ph") ⟨none, none⟩)
      "Access-Control-Allow-Origin" = some "https://petition.ph" := by
  have h1 := c9_cors_wildcard_with_credentials ⟨none, none⟩ (some "https://evil.example")
  have h2 := c9_cors_wildcard_with_credentials ⟨none, none⟩ (some "https://petition.ph")
  exact ⟨h1.1 (by decide), (h2.2.1 (by decide)).1⟩

/-- Claim C3: an otherwise-valid create payload with type `local` and a
missing or empty `location` fails validation with exactly a `location`
field error, served as a 422 `Validation failed` body; the same payload
with a non-empty `location` passes, and an omitted `target_count`
defaults to 1000. -/
theorem c3_local_requires_location (p : CreateInput) (origin : Option String) (env : CorsEnv)
    (ht : titleIssues p.title = []) (hd : descriptionIssues p.description = [])
    (htc : targetCountIssues p.target_count = []) (hc : createdByIssues p.created_by = [])
    (hty : p.ptype = some "local") :
    ((p.location = none ∨ p.location = some "") →
      validateCreatePetition p =
        .error [⟨"location", "Location is required for local petitions"⟩] ∧
      (createValidationErrorResponse
        [⟨"location", "Location is required for local petitions"⟩]
        (getCorsHeaders origin env)).status = 422 ∧
      (createValidationErrorResponse
        [⟨"location", "Location is required for local petitions"⟩]
        (getCorsHeaders origin env)).body =
        .validationErrors [⟨"location", "Location is required for local petitions"⟩]) ∧
    (∀ l, p.location = some l → jsLength (jsTrim l) > 0 →
      ∃ v, validateCreatePetition p = .ok v ∧ v.location = some (jsTrim l) ∧
        (p.target_count = none → v.target_count = 1000)) := by
  constructor
  · intro hloc
    refine ⟨?_, rfl, rfl⟩
    rcases hloc with h | h <;>
      simp [validateCreatePetition, ht, hd, htc, hc, hty, h, typeIssues, locationRefineOk,
        jsTrim, jsLength]
  · intro l hl hlen
    refine ⟨{ title := jsTrim (p.title.getD ""), description := jsTrim (p.description.getD ""),
              ptype := "local", location := some (jsTrim l),
              target_count := p.target_count.getD 1000, category_ids := p.category_ids,
              image_url := p.image_url, created_by := p.created_by.getD "" }, ?_, rfl, ?_⟩
    · simp [validateCreatePetition, ht, hd, htc, hc, hty, hl, typeIssues, locationRefineOk,
        hlen]
    · intro htcn
      simp [htcn]

/-- Claim C3 witness. -/
theorem c3_local_requires_location_witness :
    validateCreatePetition
      ⟨some "A valid petition title", some (String.mk (List.replicate 100 'd')), some "local",
       none, none, none, none, some "u1"⟩ =
      .error [⟨"location", "Location is required for local petitions"⟩] ∧
    (validateCreatePetition
      ⟨some "A valid petition title", some (String.mk (List.replicate 100 'd')), some "local",
       some "Manila", none, none, none, some "u1"⟩).isOk = true := by
  have h1 := (c3_local_requires_location
    ⟨some "A valid petition title", some (String.mk (List.replicate 100 'd')), some "local",
     none, none, none, none, some "u1"⟩ none ⟨none, none⟩
    (by decide) (by decide) rfl rfl rfl).1 (Or.inl rfl)
  have h2 := (c3_local_requires_location
    ⟨some "A valid petition title", some (String.mk (List.replicate 100 'd')), some "local",
     some "Manila", none, none, none, some "u1"⟩ none ⟨none, none⟩
    (by decide) (by decide) rfl rfl rfl).2 "Manila" rfl (by decide)
  obtain ⟨v, hv, -, -⟩ := h2
  exact ⟨h1.1, by rw [hv]; rfl⟩

/-- Claim C10 (counterexample): an `OPTIONS` preflight request with a
non-numeric id parameter is answered 204 by the CORS short-circuit, not
400, although `parseInt` yields `NaN` — so "returns 400 exactly when
parseInt yields NaN" does not hold for every request.  Moreover, the
400 the other methods return does not carry an `Invalid petition ID`
body: the handler passes that plain string to
`createCachedErrorResponse`, whose `instanceof Error` check replaces
any non-`Error` value with `'Unknown error'`. -/
theorem c10_options_counterexample :
    parseIntJS "abc" = none ∧
    (onRequestById
      ⟨"OPTIONS", "abc", "/api/petitions/abc", [], none, none, "t",
        ⟨none, none, none, none, none, none, none, none⟩⟩
      ⟨none, none⟩ kvOkFl [] ⟨[]⟩).1.status = 204 ∧
    (onRequestById
      ⟨"GET", "abc", "/api/petitions/abc", [], none, none, "t",
        ⟨none, none, none, none, none, none, none, none⟩⟩
      ⟨none, none⟩ kvOkFl [] ⟨[]⟩).1.status = 400 ∧
    (onRequestById
      ⟨"GET", "abc", "/api/petitions/abc", [], none, none, "t",
        ⟨none, none, none, none, none, none, none, none⟩⟩
      ⟨none, none⟩ kvOkFl [] ⟨[]⟩).1.body = .errorMsg "Unknown error" := by
  exact ⟨by decide, rfl, rfl, rfl⟩

/-- Claim C10 (amended): for every non-preflight (non-`OPTIONS`) request
to `/api/petitions/[id]`, the handler returns the 400 invalid-id error
response — leaving database and cache untouched — exactly when
`parseInt` of the id parameter yields `NaN`; since the handler passes
the plain string `'Invalid petition ID'` and `createCachedErrorResponse`
extracts a message only from `Error` instances, that 400's JSON body is
`'Unknown error'`.  An id with a numeric head such as `'5abc'` parses to
5 and, e.g. on `DELETE`, acts on petition 5. -/
theorem c10_invalid_petition_id (req : IdRequest) (env : CorsEnv) (fl : KVFl)
    (db : List Petition) (st : KVStore) (hm : ¬ req.method = "OPTIONS") :
    ((onRequestById req env fl db st).1.status = 400 ↔ parseIntJS req.idParam = none) ∧
    (parseIntJS req.idParam = none →
      onRequestById req env fl db st =
        (createCachedErrorResponse (.strVal "Invalid petition ID")
          (getCorsHeaders req.origin env) 400, db, st) ∧
      (onRequestById req env fl db st).1.body = .errorMsg "Unknown error") ∧
    parseIntJS "5abc" = some 5 ∧
    (req.idParam = "5abc" → req.method = "DELETE" → fl.l = false →
      (onRequestById req env fl db st).2.1 = dbDeletePetition db 5) := by
  have hcc : ∀ (data : String) (inm : Option String) (cors : List (String × String))
      (m : Nat) (now : String), ¬ (createCachedResponse data inm cors m now).status = 400 := by
    intro data inm cors m now
    simp only [createCachedResponse]
    split <;> simp
  refine ⟨⟨?_, ?_⟩, ?_, by decide, ?_⟩
  · intro h400
    rcases hpp : parseIntJS req.idParam with _ | pid
    · rfl
    · exfalso
      simp only [onRequestById, if_neg hm, hpp] at h400
      by_cases hG : req.method = "GET"
      · rw [if_pos hG] at h400
        split at h400
        · simp [createCachedErrorResponse] at h400
        · exact hcc _ _ _ _ _ h400
      · rw [if_neg hG] at h400
        by_cases hP : req.method = "PUT"
        · rw [if_pos hP] at h400
          split at h400
          · simp [createValidationErrorResponse] at h400
          · split at h400
            · simp [createCachedErrorResponse] at h400
            · split at h400
              · simp [createCachedErrorResponse] at h400
              · split at h400
                · simp [createCachedErrorResponse] at h400
                · simp [createSuccessResponse] at h400
        · rw [if_neg hP] at h400
          by_cases hD : req.method = "DELETE"
          · rw [if_pos hD] at h400
            split at h400
            · simp [createCachedErrorResponse] at h400
            · split at h400
              · simp [createCachedErrorResponse] at h400
              · simp [createSuccessResponse] at h400
          · rw [if_neg hD] at h400
            simp [createCachedErrorResponse] at h400
  · intro hnone
    simp [onRequestById, if_neg hm, hnone, createCachedErrorResponse]
  · intro hnone
    constructor
    · simp [onRequestById, if_neg hm, hnone]
    · simp [onRequestById, if_neg hm, hnone, createCachedErrorResponse, errorMessage]
  · intro hid5 hD hfl
    have hp5 : parseIntJS req.idParam = some 5 := by rw [hid5]; decide
    have hmG : ¬ req.method = "GET" := by rw [hD]; decide
    have hmP : ¬ req.method = "PUT" := by rw [hD]; decide
    simp [onRequestById, if_neg hm, hp5, if_neg hmG, if_neg hmP, if_pos hD, hfl,
      invalidateCachePattern]

/-- Claim C10 witness. -/
theorem c10_invalid_petition_id_witness :
    ((onRequestById
      ⟨"GET", "abc", "/api/petitions/abc", [], none, none, "t",
        ⟨none, none, none, none, none, none, none, none⟩⟩
      ⟨none, none⟩ kvOkFl [] ⟨[]⟩).1.status = 400 ↔ parseIntJS "abc" = none) ∧
    (onRequestById
      ⟨"GET", "abc", "/api/petitions/abc", [], none, none, "t",
        ⟨none, none, none, none, none, none, none, none⟩⟩
      ⟨none, none⟩ kvOkFl [] ⟨[]⟩).1.body = .errorMsg "Unknown error" ∧
    parseIntJS "5abc" = some 5 := by
  have h := c10_invalid_petition_id
    ⟨"GET", "abc", "/api/petitions/abc", [], none, none, "t",
      ⟨none, none, none, none, none, none, none, none⟩⟩
    ⟨none, none⟩ kvOkFl [] ⟨[]⟩ (by decide)
  exact ⟨h.1, (h.2.1 (by decide)).2, h.2.2.1⟩

/-- Claim C2: a `PUT` on `/api/petitions/[id]` by an authenticated
identity that does not own the petition is rejected 403 Forbidden with
the petition unmodified; when the identities match the ownership gate
admits the request, and with a valid body the update succeeds. -/
theorem c2_put_requires_ownership (u : AuthenticatedUser) (req : IdRequest) (env : CorsEnv)
    (fl : KVFl) (db : List Petition) (st : KVStore) (pid : Int) (p : Petition)
    (hm : req.method = "PUT") (hid : parseIntJS req.idParam = some pid)
    (hp : getPetitionById db pid = some p) :
    (¬ p.created_by = u.id →
      (routedPut (some u) false req env fl db st).1.status = 403 ∧
      (routedPut (some u) false req env fl db st).1.body =
        .errorWithMessage "Forbidden" "You can only modify petitions you created" ∧
      (routedPut (some u) false req env fl db st).2.1 = db ∧
      (routedPut (some u) false req env fl db st).2.2 = st) ∧
    (p.created_by = u.id →
      routedPut (some u) false req env fl db st = onRequestById req env fl db st ∧
      (∀ upd, validateUpdatePetition req.putBody = .ok upd →
        (onRequestById req env kvOkFl db st).1.status = 200)) := by
  constructor
  · intro hne
    simp [routedPut, hid, requirePetitionOwnership, requireAuthentication, hp, hne]
  · intro heq
    constructor
    · simp [routedPut, hid, requirePetitionOwnership, requireAuthentication, hp, heq]
    · intro upd hv
      have hmo : ¬ req.method = "OPTIONS" := by rw [hm]; decide
      have hmG : ¬ req.method = "GET" := by rw [hm]; decide
      simp [onRequestById, if_neg hmo, hid, if_neg hmG, if_pos hm, hv, dbUpdatePetition, hp,
        invalidateCachePattern, kvOkFl, createSuccessResponse]

/-- Claim C2 witness. -/
theorem c2_put_requires_ownership_witness :
    (routedPut (some ⟨"u2", "e2", "n2", none⟩) false
      ⟨"PUT", "5", "/api/petitions/5", [], none, none, "t",
        ⟨some "Updated petition title", none, none, none, none, none, none, none⟩⟩
      ⟨none, none⟩ kvOkFl
      [⟨5, "A title long enough", "d", "national", none, 1000, "active", none, none, "u1"⟩]
      ⟨[]⟩).1.status = 403 ∧
    (onRequestById
      ⟨"PUT", "5", "/api/petitions/5", [], none, none, "t",
        ⟨some "Updated petition title", none, none, none, none, none, none, none⟩⟩
      ⟨none, none⟩ kvOkFl
      [⟨5, "A title long enough", "d", "national", none, 1000, "active", none, none, "u1"⟩]
      ⟨[]⟩).1.status = 200 := by
  have h1 := c2_put_requires_ownership ⟨"u2", "e2", "n2", none⟩
    ⟨"PUT", "5", "/api/petitions/5", [], none, none, "t",
      ⟨some "Updated petition title", none, none, none, none, none, none, none⟩⟩
    ⟨none, none⟩ kvOkFl
    [⟨5, "A title long enough", "d", "national", none, 1000, "active", none, none, "u1"⟩]
    ⟨[]⟩ 5
    ⟨5, "A title long enough", "d", "national", none, 1000, "active", none, none, "u1"⟩
    rfl (by decide) (by decide)
  have h2 := c2_put_requires_ownership ⟨"u1", "e1", "n1", none⟩
    ⟨"PUT", "5", "/api/petitions/5", [], none, none, "t",
      ⟨some "Updated petition title", none, none, none, none, none, none, none⟩⟩
    ⟨none, none⟩ kvOkFl
    [⟨5, "A title long enough", "d", "national", none, 1000, "active", none, none, "u1"⟩]
    ⟨[]⟩ 5
    ⟨5, "A title long enough", "d", "national", none, 1000, "active", none, none, "u1"⟩
    rfl (by decide) (by decide)
  exact ⟨(h1.1 (by decide)).1,
         (h2.2 rfl).2 ⟨some "Updated petition title", none, none, none, none, none, none, none⟩
           (by decide)⟩

/-- Claim C1 (counterexample): a successful create (`POST
/api/petitions`) leaves entries of the single-entity `petition:`
namespace in the cache — the handler invalidates only `petitions:` —
so "both namespaces are deleted after every successful mutation" fails
for create. -/
theorem c1_create_keeps_entity_namespace_counterexample :
    (onRequestPetitionsPost (some ⟨"u1", "e", "n", none⟩)
      ⟨some "A valid petition title", some (String.mk (List.replicate 100 'd')),
       some "national", none, none, none, none, none⟩
      none ⟨none, none⟩ kvOkFl 9 [] ⟨[("petition:/api/petitions/5", "x", 600)]⟩).1.status =
      200 ∧
    kvLookup (onRequestPetitionsPost (some ⟨"u1", "e", "n", none⟩)
      ⟨some "A valid petition title", some (String.mk (List.replicate 100 'd')),
       some "national", none, none, none, none, none⟩
      none ⟨none, none⟩ kvOkFl 9 [] ⟨[("petition:/api/petitions/5", "x", 600)]⟩).2.2
      "petition:/api/petitions/5" = some "x" := by
  exact ⟨by decide, by decide⟩

/-- Claim C1 (amended): a successful `PUT` or `DELETE` on a petition
invalidates every cache entry under both the `petitions:` and
`petition:` namespaces before the success response is returned, while a
successful create invalidates every entry under the collection
namespace `petitions:` only. -/
theorem c1_mutation_invalidates_namespaces :
    (∀ (req : IdRequest) (env : CorsEnv) (db : List Petition) (st : KVStore),
      (req.method = "PUT" ∨ req.method = "DELETE") →
      (onRequestById req env kvOkFl db st).1.status = 200 →
      ((onRequestById req env kvOkFl db st).2.2.entries.all
        (fun e => !strStarts e.1 "petitions:" && !strStarts e.1 "petition:")) = true) ∧
    (∀ (user : AuthenticatedUser) (body : CreateInput) (origin : Option String)
        (env : CorsEnv) (newId : Int) (db : List Petition) (st : KVStore),
      (onRequestPetitionsPost (some user) body origin env kvOkFl newId db st).1.status = 200 →
      ((onRequestPetitionsPost (some user) body origin env kvOkFl newId db st).2.2.entries.all
        (fun e => !strStarts e.1 "petitions:")) = true) := by
  have hfilter2 : ∀ (l : List (String × String × Nat)),
      ((l.filter (fun e => !strStarts e.1 "petitions:" || false)).filter
        (fun e => !strStarts e.1 "petition:" || false)).all
        (fun e => !strStarts e.1 "petitions:" && !strStarts e.1 "petition:") = true := by
    intro l
    rw [List.all_eq_true]
    intro e he
    rw [List.mem_filter] at he
    obtain ⟨he1, h2⟩ := he
    rw [List.mem_filter] at he1
    obtain ⟨-, h1⟩ := he1
    rw [Bool.or_false] at h1 h2
    rw [Bool.and_eq_true]
    exact ⟨h1, h2⟩
  have hfilter1 : ∀ (l : List (String × String × Nat)),
      ((l.filter (fun e => !strStarts e.1 "petitions:" || false)).all
        (fun e => !strStarts e.1 "petitions:")) = true := by
    intro l
    rw [List.all_eq_true]
    intro e he
    rw [List.mem_filter] at he
    rw [Bool.or_false] at he
    exact he.2
  constructor
  · intro req env db st hmeth h200
    have hmo : ¬ req.method = "OPTIONS" := by
      rcases hmeth with h | h <;> rw [h] <;> decide
    have hmG : ¬ req.method = "GET" := by
      rcases hmeth with h | h <;> rw [h] <;> decide
    rcases hpp : parseIntJS req.idParam with _ | pid
    · simp only [onRequestById, if_neg hmo, hpp] at h200
      simp [createCachedErrorResponse] at h200
    · rcases hmeth with hP | hD
      · simp only [onRequestById, if_neg hmo, hpp, if_neg hmG, if_pos hP] at h200 ⊢
        rcases hv : validateUpdatePetition req.putBody with errs | upd <;>
          simp only [hv] at h200 ⊢
        · simp [createValidationErrorResponse] at h200
        · rcases hu : dbUpdatePetition db pid upd with _ | pair <;>
            simp only [hu] at h200 ⊢
          · simp [createCachedErrorResponse] at h200
          · obtain ⟨p', db'⟩ := pair
            exact hfilter2 st.entries
      · have hmP : ¬ req.method = "PUT" := by rw [hD]; decide
        simp only [onRequestById, if_neg hmo, hpp, if_neg hmG, if_neg hmP, if_pos hD] at h200 ⊢
        exact hfilter2 st.entries
  · intro user body origin env newId db st h200
    simp only [onRequestPetitionsPost] at h200 ⊢
    rcases hv : validateCreatePetition { body with created_by := some user.id } with errs | v <;>
      simp only [hv] at h200 ⊢
    · simp [createValidationErrorResponse] at h200
    · exact hfilter1 st.entries

/-- Claim C1 witness. -/
theorem c1_mutation_invalidates_namespaces_witness :
    ((onRequestById
      ⟨"DELETE", "5", "/api/petitions/5", [], none, none, "t",
        ⟨none, none, none, none, none, none, none, none⟩⟩
      ⟨none, none⟩ kvOkFl
      [⟨5, "A title long enough", "d", "national", none, 1000, "active", none, none, "u1"⟩]
      ⟨[("petitions:/api/petitions", "xs", 300), ("petition:/api/petitions/5", "x", 600),
        ("other:k", "y", 1)]⟩).2.2.entries.all
      (fun e => !strStarts e.1 "petitions:" && !strStarts e.1 "petition:")) = true ∧
    ((onRequestPetitionsPost (some ⟨"u1", "e", "n", none⟩)
      ⟨some "A valid petition title", some (String.mk (List.replicate 100 'd')),
       some "national", none, none, none, none, none⟩
      none ⟨none, none⟩ kvOkFl 9 []
      ⟨[("petitions:/api/petitions", "xs", 300)]⟩).2.2.entries.all
      (fun e => !strStarts e.1 "petitions:")) = true := by
  have h := c1_mutation_invalidates_namespaces
  exact ⟨h.1
    ⟨"DELETE", "5", "/api/petitions/5", [], none, none, "t",
      ⟨none, none, none, none, none, none, none, none⟩⟩
    ⟨none, none⟩
    [⟨5, "A title long enough", "d", "national", none, 1000, "active", none, none, "u1"⟩]
    ⟨[("petitions:/api/petitions", "xs", 300), ("petition:/api/petitions/5", "x", 600),
      ("other:k", "y", 1)]⟩ (Or.inr rfl) (by decide),
  h.2 ⟨"u1", "e", "n", none⟩
    ⟨some "A valid petition title", some (String.mk (List.replicate 100 'd')),
     some "national", none, none, none, none, none⟩
    none ⟨none, none⟩ 9 [] ⟨[("petitions:/api/petitions", "xs", 300)]⟩ (by decide)⟩
